import Mathlib

/-!
Verification of the box-counting fractal-dimension engine
(`fractal_engine.py`): a shallow embedding of `validate_data`,
`get_box_counts`, `calculate_fractal_dimension` and `box_counting`,
followed by theorems about the embedded definitions.

Floating-point values are modelled by exact real numbers.  Machine floats
that can be non-finite (the raw coordinate inputs, which are validated
with `np.isfinite`) are modelled by `FVal`, a rational tagged with the
three non-finite alternatives.  Exceptions are modelled by `Except`.
-/

/-- A raw coordinate value as handed to the engine: a finite value
(modelled exactly by a rational) or one of the non-finite IEEE values
recognised by `np.isfinite`. -/
inductive FVal where
  | fin (q : ℚ)
  | nan
  | inf
  | ninf
deriving DecidableEq, Repr

/-- `np.isfinite` on one value. -/
def FVal.isFinite : FVal → Bool
  | .fin _ => true
  | _ => false

/-- `np.abs(v) > c` with NumPy comparison semantics: any comparison with
NaN is false, and the absolute value of an infinity exceeds every bound. -/
def FVal.absGT (v : FVal) (c : ℚ) : Bool :=
  match v with
  | .fin q => decide (c < |q|)
  | .nan => false
  | .inf => true
  | .ninf => true

/-- The value of a finite `FVal`; the non-finite cases are unreachable in
the engine because `validate_data` rejects them before any use. -/
def FVal.toReal : FVal → ℝ
  | .fin q => (q : ℝ)
  | _ => 0

/-- Coordinate arrays as real-number lists, after validation has ruled
out non-finite entries. -/
def toReals (xs : List FVal) : List ℝ :=
  xs.map FVal.toReal

/-- The distinct `ValueError`s that `validate_data` can raise, one per
check, in source order. -/
inductive VErr where
  | emptyInput
  | lengthMismatch
  | nonFinite
  | latOutOfRange
  | lonOutOfRange
deriving DecidableEq, Repr

/-- `validate_data(latitudes, longitudes)`: the five checks of the source,
in order, each raising its own `ValueError`. -/
def validate_data (latitudes longitudes : List FVal) : Except VErr Unit :=
  if latitudes.length = 0 ∨ longitudes.length = 0 then .error .emptyInput
  else if latitudes.length ≠ longitudes.length then .error .lengthMismatch
  else if ¬ (latitudes.all FVal.isFinite ∧ longitudes.all FVal.isFinite) then
    .error .nonFinite
  else if latitudes.any (fun v => v.absGT 90) then .error .latOutOfRange
  else if longitudes.any (fun v => v.absGT 180) then .error .lonOutOfRange
  else .ok ()

/-- `arr.max()` (NumPy reduce over a non-empty array; the engine only
calls it on validated, hence non-empty, data — `0` is a junk default). -/
def np_amax : List ℝ → ℝ
  | [] => 0
  | a :: l => l.foldl max a

/-- `arr.min()` (NumPy reduce; see `np_amax`). -/
def np_amin : List ℝ → ℝ
  | [] => 0
  | a :: l => l.foldl min a

/-- `np.arange(start, stop, step)`: `⌈(stop - start) / step⌉` values
`start + k * step` (empty when that count is not positive). -/
noncomputable def np_arange (start stop step : ℝ) : List ℝ :=
  (List.range (⌈(stop - start) / step⌉).toNat).map fun k : ℕ => start + (k : ℝ) * step

/-- The cell index a coordinate `v` receives in a histogram axis with
`nbins` uniform bins of width `s` anchored at `m`: `np.histogram2d` puts
`v` in bin `⌊(v - m) / s⌋`, except that a value sitting exactly on the
rightmost edge is counted in the last bin rather than as an outlier. -/
noncomputable def binIndex (m s : ℝ) (nbins : ℕ) (v : ℝ) : ℕ :=
  min (⌊(v - m) / s⌋).toNat (nbins - 1)

/-- `get_box_counts(latitudes, longitudes, box_size)`: grid edges from
`np.arange(min, max + box_size, box_size)` on each axis, a 2-D histogram
over those edges, and the number of non-empty cells.  With the edges the
source generates (uniform steps of `box_size` anchored at the minimum,
covering every point), `np.histogram2d` assigns each point the cell pair
given by `binIndex`, so the number of non-empty cells is the number of
distinct cell pairs; an axis whose edge list has fewer than two entries
yields a histogram with no cells at all. -/
noncomputable def get_box_counts (latitudes longitudes : List ℝ) (box_size : ℝ) : ℕ :=
  let lat_min := np_amin latitudes
  let lon_min := np_amin longitudes
  let lat_bins := np_arange lat_min (np_amax latitudes + box_size) box_size
  let lon_bins := np_arange lon_min (np_amax longitudes + box_size) box_size
  let nlat := lat_bins.length - 1
  let nlon := lon_bins.length - 1
  if lat_bins.length ≤ 1 ∨ lon_bins.length ≤ 1 then 0
  else
    (((latitudes.zip longitudes).map fun p =>
      (binIndex lat_min box_size nlat p.1, binIndex lon_min box_size nlon p.2)).dedup).length

/-- `np.log10`. -/
noncomputable def np_log10 (x : ℝ) : ℝ :=
  Real.logb 10 x

/-- `np.linspace(start, stop, num)` (default `endpoint=True`): `num`
evenly spaced values from `start` to `stop` inclusive.  For `num = 1` the
single value is `start` (the step expression collapses to `0` there, as
NumPy special-cases). -/
noncomputable def np_linspace (start stop : ℝ) (num : ℕ) : List ℝ :=
  (List.range num).map fun i : ℕ => start + (i : ℝ) * ((stop - start) / ((num : ℝ) - 1))

/-- `np.logspace(start, stop, num)`: `10 ** np.linspace(start, stop, num)`. -/
noncomputable def np_logspace (start stop : ℝ) (num : ℕ) : List ℝ :=
  (np_linspace start stop num).map fun t => (10 : ℝ) ^ t

/-- The errors `scipy.stats.linregress` can raise: empty input arrays,
or more than one point with all x values identical. -/
inductive RegErr where
  | emptyInput
  | identicalX
deriving DecidableEq, Repr

/-- `np.mean`. -/
noncomputable def np_mean (xs : List ℝ) : ℝ :=
  xs.sum / xs.length

/-- The result record of `scipy.stats.linregress` (the unused `p_value`
field is omitted).  `std_error` is an `Option`: `none` models the
infinite standard error scipy reports for a two-point regression with
distinct y values, `some v` a finite value. -/
structure LinregressResult where
  slope : ℝ
  intercept : ℝ
  rvalue : ℝ
  stderr : Option ℝ

/-- `scipy.stats.linregress(x, y)`: empty-input and identical-x checks,
biased second moments about the means, the correlation coefficient with
its zero-variance guard and clipping to `[-1, 1]`, the least-squares
slope and intercept, and the slope standard error with its special case
for exactly two points. -/
noncomputable def linregress (x y : List ℝ) : Except RegErr LinregressResult :=
  if x.length = 0 ∨ y.length = 0 then .error .emptyInput
  else if 1 < x.length ∧ np_amax x = np_amin x then .error .identicalX
  else
    let n := x.length
    let xmean := np_mean x
    let ymean := np_mean y
    let ssxm := np_mean (x.map fun a => (a - xmean) ^ 2)
    let ssym := np_mean (y.map fun b => (b - ymean) ^ 2)
    let ssxym := np_mean ((x.zip y).map fun p => (p.1 - xmean) * (p.2 - ymean))
    let r0 := ssxym / Real.sqrt (ssxm * ssym)
    let r := if ssxm = 0 ∨ ssym = 0 then 0
      else if 1 < r0 then 1 else if r0 < -1 then -1 else r0
    let slope := ssxym / ssxm
    let intercept := ymean - slope * xmean
    let stderr :=
      if n = 2 then (if y.getD 0 0 = y.getD 1 0 then some 0 else none)
      else some (Real.sqrt ((1 - r ^ 2) * ssym / ssxm / ((n : ℝ) - 2)))
    .ok ⟨slope, intercept, r, stderr⟩

/-- `calculate_fractal_dimension(box_sizes, counts)`: base-10 logs of
both arrays, a `linregress` fit, and the tuple
`(D, r_squared, std_err, intercept)` with `D = -slope` and
`r_squared = r ** 2`; a regression failure propagates. -/
noncomputable def calculate_fractal_dimension (box_sizes counts : List ℝ) :
    Except RegErr (ℝ × ℝ × Option ℝ × ℝ) :=
  (linregress (box_sizes.map np_log10) (counts.map np_log10)).map
    fun l => (-l.slope, l.rvalue ^ 2, l.stderr, l.intercept)

/-- `arr.max() - arr.min()`, the spatial extent of one coordinate axis. -/
noncomputable def spatial_range (xs : List ℝ) : ℝ :=
  np_amax xs - np_amin xs

/-- The `max_box_size` actually used: the given one, or one quarter of
the smaller spatial range if `None` was passed. -/
noncomputable def derived_max (lat_range lon_range : ℝ) (max_box_size : Option ℝ) : ℝ :=
  max_box_size.getD (min lat_range lon_range / 4)

/-- The per-scale observations surviving the zero-count filter: every
box size paired with its occupancy count, keeping only positive counts
(`valid_mask = counts > 0` applied to both arrays). -/
noncomputable def valid_observations (latitudes longitudes : List ℝ)
    (box_sizes : List ℝ) : List (ℝ × ℕ) :=
  (box_sizes.zip (box_sizes.map (get_box_counts latitudes longitudes))).filter
    fun p => 0 < p.2

/-- How many scales survive the zero-count filter in a `box_counting`
call with these arguments. -/
noncomputable def surviving_scales (latitudes longitudes : List FVal)
    (min_box_size : ℝ) (max_box_size : Option ℝ) (num_scales : ℕ) : ℕ :=
  let la := toReals latitudes
  let lo := toReals longitudes
  let mx := derived_max (spatial_range la) (spatial_range lo) max_box_size
  (valid_observations la lo
    (np_logspace (np_log10 min_box_size) (np_log10 mx) num_scales)).length

/-- The failures of a `box_counting` call: a validation error from
`validate_data`, the `min_box_size >= max_box_size` `ValueError`, or an
error raised inside the regression. -/
inductive EngineErr where
  | validation (e : VErr)
  | paramError
  | regression (e : RegErr)
deriving DecidableEq, Repr

/-- The result dictionary of `box_counting`.  The per-scale detail that
the source includes only under `return_details=True` is always carried
here; `low_confidence` records whether the fewer-than-3-valid-scales
warning was emitted. -/
structure FitResult where
  D : ℝ
  r_squared : ℝ
  std_error : Option ℝ
  intercept : ℝ
  n_points : ℕ
  lat_range : ℝ
  lon_range : ℝ
  box_sizes : List ℝ
  counts : List ℕ
  low_confidence : Bool

/-- `box_counting(latitudes, longitudes, min_box_size, max_box_size,
num_scales)`: validation, spatial extent, the derived or given
`max_box_size`, the `min_box_size >= max_box_size` check, the
logarithmically spaced scale series, one occupancy count per scale, the
zero-count filter with its low-confidence warning, the regression, and
the assembled result. -/
noncomputable def box_counting (latitudes longitudes : List FVal)
    (min_box_size : ℝ) (max_box_size : Option ℝ) (num_scales : ℕ) :
    Except EngineErr FitResult :=
  match validate_data latitudes longitudes with
  | .error e => .error (.validation e)
  | .ok _ =>
    let la := toReals latitudes
    let lo := toReals longitudes
    let lat_range := spatial_range la
    let lon_range := spatial_range lo
    let mx := derived_max lat_range lon_range max_box_size
    if min_box_size ≥ mx then .error .paramError
    else
      let obs := valid_observations la lo
        (np_logspace (np_log10 min_box_size) (np_log10 mx) num_scales)
      let low_confidence := decide (obs.length < 3)
      match calculate_fractal_dimension (obs.map Prod.fst)
          ((obs.map Prod.snd).map fun c : ℕ => (c : ℝ)) with
      | .error e => .error (.regression e)
      | .ok (D, r_squared, std_err, intercept) =>
        .ok ⟨D, r_squared, std_err, intercept, latitudes.length,
          lat_range, lon_range, obs.map Prod.fst, obs.map Prod.snd, low_confidence⟩

/-! ## Basic facts about the NumPy reductions and the grid -/

lemma le_foldl_max (l : List ℝ) (a : ℝ) : a ≤ l.foldl max a := by
  induction l generalizing a with
  | nil => exact le_refl a
  | cons b l ih => exact le_trans (le_max_left a b) (ih (max a b))

lemma foldl_min_le (l : List ℝ) (a : ℝ) : l.foldl min a ≤ a := by
  induction l generalizing a with
  | nil => exact le_refl a
  | cons b l ih => exact le_trans (ih (min a b)) (min_le_left a b)

lemma np_amin_le_np_amax (l : List ℝ) : np_amin l ≤ np_amax l := by
  cases l with
  | nil => exact le_refl 0
  | cons a l => exact le_trans (foldl_min_le l a) (le_foldl_max l a)

lemma spatial_range_nonneg (l : List ℝ) : 0 ≤ spatial_range l :=
  sub_nonneg.2 (np_amin_le_np_amax l)

lemma np_arange_length (start stop step : ℝ) :
    (np_arange start stop step).length = (⌈(stop - start) / step⌉).toNat := by
  rw [np_arange, List.length_map, List.length_range]

lemma grid_length (m M s : ℝ) (hs : 0 < s) (hmM : m ≤ M) :
    (np_arange m (M + s) s).length = (⌈(M - m) / s⌉).toNat + 1 := by
  rw [np_arange_length]
  have h1 : (M + s - m) / s = (M - m) / s + 1 := by
    field_simp
    ring
  have h2 : (0:ℤ) ≤ ⌈(M - m) / s⌉ :=
    Int.ceil_nonneg (div_nonneg (sub_nonneg.2 hmM) hs.le)
  rw [h1, Int.ceil_add_one]
  omega

lemma ceil_toNat_eq_zero_iff (r s : ℝ) (hs : 0 < s) (hr : 0 ≤ r) :
    (⌈r / s⌉).toNat = 0 ↔ r = 0 := by
  have h2 : (0:ℤ) ≤ ⌈r / s⌉ := Int.ceil_nonneg (div_nonneg hr hs.le)
  constructor
  · intro h
    have h3 : ⌈r / s⌉ ≤ 0 := by omega
    have h4 : r / s ≤ 0 := by exact_mod_cast Int.ceil_le.1 h3
    have h5 : r ≤ 0 := by
      by_contra h6
      exact absurd (div_pos (lt_of_not_le h6) hs) (not_lt.2 h4)
    exact le_antisymm h5 hr
  · intro h
    simp [h]

lemma get_box_counts_eq (lats lons : List ℝ) (s : ℝ) (hs : 0 < s) :
    get_box_counts lats lons s =
      if spatial_range lats = 0 ∨ spatial_range lons = 0 then 0
      else (((lats.zip lons).map fun p =>
        (binIndex (np_amin lats) s (⌈spatial_range lats / s⌉).toNat p.1,
         binIndex (np_amin lons) s (⌈spatial_range lons / s⌉).toNat p.2)).dedup).length := by
  have hc1 : ∀ (r : ℝ), 0 ≤ r → ((⌈r / s⌉).toNat + 1 ≤ 1 ↔ r = 0) := by
    intro r hr
    rw [show ((⌈r / s⌉).toNat + 1 ≤ 1 ↔ (⌈r / s⌉).toNat = 0) from by omega]
    exact ceil_toNat_eq_zero_iff r s hs hr
  unfold get_box_counts
  have hlen1 := grid_length (np_amin lats) (np_amax lats) s hs (np_amin_le_np_amax lats)
  have hlen2 := grid_length (np_amin lons) (np_amax lons) s hs (np_amin_le_np_amax lons)
  have hcond : ((⌈(np_amax lats - np_amin lats) / s⌉.toNat + 1 ≤ 1 ∨
      ⌈(np_amax lons - np_amin lons) / s⌉.toNat + 1 ≤ 1)) ↔
      (np_amax lats - np_amin lats = 0 ∨ np_amax lons - np_amin lons = 0) :=
    or_congr (hc1 _ (spatial_range_nonneg lats)) (hc1 _ (spatial_range_nonneg lons))
  simp only [hlen1, hlen2, Nat.add_sub_cancel, spatial_range, hcond]

lemma get_box_counts_le_length (lats lons : List ℝ) (s : ℝ) :
    get_box_counts lats lons s ≤ lats.length := by
  simp only [get_box_counts]
  split
  · exact Nat.zero_le _
  · refine le_trans (List.Sublist.length_le (List.dedup_sublist _)) ?_
    rw [List.length_map, List.length_zip]
    omega

lemma get_box_counts_ge_one (lats lons : List ℝ) (s : ℝ) (hs : 0 < s)
    (hzip : lats.zip lons ≠ [])
    (h1 : spatial_range lats ≠ 0) (h2 : spatial_range lons ≠ 0) :
    1 ≤ get_box_counts lats lons s := by
  rw [get_box_counts_eq lats lons s hs, if_neg (by tauto)]
  refine List.length_pos.2 ?_
  rw [ne_eq, List.dedup_eq_nil, List.map_eq_nil]
  exact hzip

lemma get_box_counts_degenerate (lats lons : List ℝ) (s : ℝ) (hs : 0 < s)
    (h : spatial_range lats = 0 ∨ spatial_range lons = 0) :
    get_box_counts lats lons s = 0 := by
  rw [get_box_counts_eq lats lons s hs, if_pos h]

/-! ## The validation predicate -/

/-- The claim's notion of a malformed coordinate input: both arrays
empty, unequal lengths, a non-finite value, a latitude of magnitude
above 90, or a longitude of magnitude above 180. -/
def Malformed (lats lons : List FVal) : Prop :=
  (lats = [] ∧ lons = []) ∨
  lats.length ≠ lons.length ∨
  (∃ v ∈ lats, v.isFinite = false) ∨
  (∃ v ∈ lons, v.isFinite = false) ∨
  (∃ v ∈ lats, v.absGT 90 = true) ∨
  (∃ v ∈ lons, v.absGT 180 = true)

lemma validate_data_error_iff (lats lons : List FVal) :
    (∃ e, validate_data lats lons = .error e) ↔ Malformed lats lons := by
  unfold validate_data Malformed
  split_ifs with h1 h2 h3 h4 h5
  · simp only [Except.error.injEq, exists_eq', true_iff]
    rcases h1 with h1 | h1
    · rcases List.length_eq_zero.1 h1 with rfl
      by_cases hl : lons = []
      · exact Or.inl ⟨rfl, hl⟩
      · exact Or.inr (Or.inl fun h => hl (List.length_eq_zero.1 h.symm))
    · rcases List.length_eq_zero.1 h1 with rfl
      by_cases hl : lats = []
      · exact Or.inl ⟨hl, rfl⟩
      · exact Or.inr (Or.inl fun h => hl (List.length_eq_zero.1 h))
  · simp only [Except.error.injEq, exists_eq', true_iff]
    exact Or.inr (Or.inl h2)
  · simp only [Except.error.injEq, exists_eq', true_iff]
    rw [List.any_eq_true] at h4
    exact Or.inr (Or.inr (Or.inr (Or.inr (Or.inl h4))))
  · simp only [Except.error.injEq, exists_eq', true_iff]
    rw [List.any_eq_true] at h5
    exact Or.inr (Or.inr (Or.inr (Or.inr (Or.inr h5))))
  · simp only [reduceCtorEq, exists_false, false_iff]
    push_neg at h1
    intro hmal
    rcases hmal with ⟨ha, hb⟩ | h | ⟨v, hv, hfin⟩ | ⟨v, hv, hfin⟩ | ⟨v, hv, habs⟩ | ⟨v, hv, habs⟩
    · exact h1.1 (by rw [ha]; rfl)
    · exact h2 h
    · have hh := List.all_eq_true.1 h3.1 v hv
      simp [hh] at hfin
    · have hh := List.all_eq_true.1 h3.2 v hv
      simp [hh] at hfin
    · exact h4 (List.any_eq_true.2 ⟨v, hv, habs⟩)
    · exact h5 (List.any_eq_true.2 ⟨v, hv, habs⟩)
  · simp only [Except.error.injEq, exists_eq', true_iff]
    rw [not_and_or] at h3
    rcases h3 with h3 | h3
    · refine Or.inr (Or.inr (Or.inl ?_))
      rw [List.all_eq_true] at h3
      push_neg at h3
      rcases h3 with ⟨v, hv, hfin⟩
      exact ⟨v, hv, by simpa using hfin⟩
    · refine Or.inr (Or.inr (Or.inr (Or.inl ?_)))
      rw [List.all_eq_true] at h3
      push_neg at h3
      rcases h3 with ⟨v, hv, hfin⟩
      exact ⟨v, hv, by simpa using hfin⟩

/-! ## Facts about the scale series -/

lemma np_linspace_length (a b : ℝ) (n : ℕ) : (np_linspace a b n).length = n := by
  rw [np_linspace, List.length_map, List.length_range]

lemma np_logspace_length (a b : ℝ) (n : ℕ) : (np_logspace a b n).length = n := by
  rw [np_logspace, List.length_map, np_linspace_length]

lemma np_linspace_getElem (a b : ℝ) (n i : ℕ) (h : i < (np_linspace a b n).length) :
    (np_linspace a b n)[i] =
      a + (i : ℝ) * ((b - a) / ((n : ℝ) - 1)) := by
  simp [np_linspace]

lemma np_logspace_getElem (a b : ℝ) (n i : ℕ) (h : i < (np_logspace a b n).length) :
    (np_logspace a b n)[i] =
      (10 : ℝ) ^ (a + (i : ℝ) * ((b - a) / ((n : ℝ) - 1))) := by
  simp [np_logspace, np_linspace]

lemma np_logspace_pos (a b : ℝ) (n : ℕ) :
    ∀ x ∈ np_logspace a b n, 0 < x := by
  intro x hx
  rw [np_logspace, List.mem_map] at hx
  rcases hx with ⟨t, _, rfl⟩
  exact Real.rpow_pos_of_pos (by norm_num) t

lemma np_logspace_pairwise (a b : ℝ) (hab : a < b) (n : ℕ) :
    (np_logspace a b n).Pairwise (· < ·) := by
  rw [List.pairwise_iff_getElem]
  intro i j hi hj hij
  have hi2 : i < n := by rw [np_logspace_length] at hi; exact hi
  have hj2 : j < n := by rw [np_logspace_length] at hj; exact hj
  rw [np_logspace_getElem a b n i hi, np_logspace_getElem a b n j hj]
  rw [Real.rpow_lt_rpow_left_iff (by norm_num : (1:ℝ) < 10)]
  have hd : 0 < (b - a) / ((n : ℝ) - 1) := by
    apply div_pos (sub_pos.2 hab)
    have : (2 : ℕ) ≤ n := by omega
    have : (2 : ℝ) ≤ (n : ℝ) := by exact_mod_cast this
    linarith
  have hij' : (i : ℝ) < (j : ℝ) := by exact_mod_cast hij
  nlinarith

/-- The scale series of a `box_counting` call with `0 < mn < mx` and at
least two scales: exactly `n` values, strictly increasing, starting at
`mn` and ending at `mx`. -/
lemma scale_series_spec (mn mx : ℝ) (n : ℕ) (h0 : 0 < mn) (hlt : mn < mx) (hn : 2 ≤ n) :
    (np_logspace (np_log10 mn) (np_log10 mx) n).length = n ∧
    (np_logspace (np_log10 mn) (np_log10 mx) n).head? = some mn ∧
    (np_logspace (np_log10 mn) (np_log10 mx) n).getLast? = some mx ∧
    (np_logspace (np_log10 mn) (np_log10 mx) n).Pairwise (· < ·) := by
  have hx : 0 < mx := lt_trans h0 hlt
  have hlog : np_log10 mn < np_log10 mx :=
    Real.logb_lt_logb (by norm_num) h0 hlt
  have hlen := np_logspace_length (np_log10 mn) (np_log10 mx) n
  refine ⟨hlen, ?_, ?_, np_logspace_pairwise _ _ hlog n⟩
  · rw [List.head?_eq_getElem?, List.getElem?_eq_getElem (by omega),
      np_logspace_getElem _ _ n 0 (by rw [np_logspace_length]; omega)]
    rw [Nat.cast_zero, zero_mul, add_zero, np_log10,
      Real.rpow_logb (by norm_num) (by norm_num) h0]
  · rw [List.getLast?_eq_getElem?, hlen, List.getElem?_eq_getElem (by omega),
      np_logspace_getElem _ _ n (n - 1) (by rw [np_logspace_length]; omega)]
    have hne : ((n : ℝ) - 1) ≠ 0 := by
      have : (2 : ℝ) ≤ (n : ℝ) := by exact_mod_cast hn
      linarith
    have hcast : ((n - 1 : ℕ) : ℝ) = (n : ℝ) - 1 := by
      have : (1 : ℕ) ≤ n := by omega
      push_cast [this]
      ring
    rw [hcast, ← mul_div_assoc, mul_div_cancel_left₀ _ hne,
      show np_log10 mn + (np_log10 mx - np_log10 mn) = np_log10 mx from by ring,
      np_log10, Real.rpow_logb (by norm_num) (by norm_num) hx]

/-! ## Facts about the regression -/

lemma linregress_nil : linregress [] [] = .error .emptyInput := by
  simp [linregress]

lemma linregress_ok (x y : List ℝ) (hx : ¬(x.length = 0 ∨ y.length = 0))
    (hne : ¬(1 < x.length ∧ np_amax x = np_amin x)) :
    ∃ r, linregress x y = .ok r := by
  unfold linregress
  rw [if_neg hx, if_neg hne]
  exact ⟨_, rfl⟩

lemma amax_two_ne (x0 x1 : ℝ) (hx : x0 ≠ x1) :
    ¬ (np_amax [x0, x1] = np_amin [x0, x1]) := by
  simp only [np_amax, np_amin, List.foldl]
  intro h
  rcases le_total x0 x1 with hle | hle
  · rw [max_eq_right hle, min_eq_left hle] at h
    exact hx h.symm
  · rw [max_eq_left hle, min_eq_right hle] at h
    exact hx h

/-- A two-point regression whose y values coincide: zero slope, zero
correlation (the zero-variance guard fires), intercept at the common y
value, and the two-point equal-y standard error `0`. -/
lemma linregress_two_const (x0 x1 y0 : ℝ) (hx : x0 ≠ x1) :
    linregress [x0, x1] [y0, y0] = .ok ⟨0, y0, 0, some 0⟩ := by
  unfold linregress
  rw [if_neg (by simp), if_neg (by
    intro h
    exact amax_two_ne x0 x1 hx h.2)]
  have hym : np_mean [y0, y0] = y0 := by
    simp [np_mean]
  have hsym : np_mean ([y0, y0].map fun b => (b - y0) ^ 2) = 0 := by
    simp [np_mean]
  have hsxym : np_mean (([x0, x1].zip [y0, y0]).map fun p =>
      (p.1 - np_mean [x0, x1]) * (p.2 - y0)) = 0 := by
    simp [np_mean]
  simp only [hym]
  simp only [hsym, hsxym]
  simp [List.getD]

lemma pairwise_lt_amax_ne_amin (l : List ℝ) (hl : l.Pairwise (· < ·)) (h2 : 2 ≤ l.length) :
    np_amax l ≠ np_amin l := by
  rcases l with _ | ⟨a, _ | ⟨b, t⟩⟩
  · simp at h2
  · simp at h2
  · have hab : a < b := (List.pairwise_cons.1 hl).1 b (List.mem_cons_self b t)
    have hmax : b ≤ np_amax (a :: b :: t) := by
      show b ≤ (b :: t).foldl max a
      rw [List.foldl_cons]
      exact le_trans (le_max_right a b) (le_foldl_max t (max a b))
    have hmin : np_amin (a :: b :: t) ≤ a := by
      show (b :: t).foldl min a ≤ a
      rw [List.foldl_cons]
      exact le_trans (foldl_min_le t (min a b)) (min_le_left a b)
    intro h
    have hba : b ≤ a := le_trans (le_trans hmax (le_of_eq h)) hmin
    linarith

/-! ## Facts about the surviving observations -/

lemma valid_observations_sizes_sublist (la lo : List ℝ) (sizes : List ℝ) :
    ((valid_observations la lo sizes).map Prod.fst).Sublist sizes := by
  have h1 : ((sizes.zip (sizes.map (get_box_counts la lo))).map Prod.fst) = sizes :=
    List.map_fst_zip _ _ (by rw [List.length_map])
  have h2 := List.Sublist.map Prod.fst
    (List.filter_sublist (l := sizes.zip (sizes.map (get_box_counts la lo)))
      (p := fun p => decide (0 < p.2)))
  rw [h1] at h2
  exact h2

lemma valid_observations_length_eq (la lo : List ℝ) (sizes : List ℝ) :
    ((valid_observations la lo sizes).map Prod.fst).length =
      (valid_observations la lo sizes).length :=
  List.length_map _ _

lemma validate_data_ok_or_error (lats lons : List FVal) :
    validate_data lats lons = .ok () ∨ ∃ e, validate_data lats lons = .error e := by
  unfold validate_data
  split_ifs <;> simp

/-! ## Claim theorems -/

/-- C9: the estimation is deterministic — two invocations of
`box_counting` on identical coordinate arrays and identical parameters
return identical results (the engine is a pure function of its
arguments; no state persists between calls). -/
theorem box_counting_deterministic (lats1 lons1 lats2 lons2 : List FVal)
    (mn : ℝ) (mx : Option ℝ) (n : ℕ) (h1 : lats1 = lats2) (h2 : lons1 = lons2) :
    box_counting lats1 lons1 mn mx n = box_counting lats2 lons2 mn mx n := by
  rw [h1, h2]

/-- Witness for C9 at a concrete input. -/
theorem box_counting_deterministic_witness :
    box_counting [FVal.fin 0, FVal.fin 1] [FVal.fin 0, FVal.fin 1] 1 (some 2) 3 =
      box_counting [FVal.fin 0, FVal.fin 1] [FVal.fin 0, FVal.fin 1] 1 (some 2) 3 :=
  box_counting_deterministic _ _ _ _ 1 (some 2) 3 rfl rfl

/-- C2 (code bug): for a single point the grid occupancy counter returns
`0` occupied cells, not the `1` the claim requires — with a zero
coordinate range, `np.arange(min, max + box_size, box_size)` produces a
single bin edge, so the histogram has no cells at all.  The concrete
failing input is `latitudes = [0.0]`, `longitudes = [0.0]`,
`box_size = 1.0` (exact in floating point). -/
theorem single_point_box_count_zero : get_box_counts [(0:ℝ)] [(0:ℝ)] 1 = 0 := by
  apply get_box_counts_degenerate _ _ _ (by norm_num)
  left
  norm_num [spatial_range, np_amax, np_amin]

/-- C10: a valid input whose latitude range or longitude range is zero,
with `max_box_size` omitted, derives `max_box_size = 0`, so the call
always fails with the `min_box_size >= max_box_size` parameter error for
every positive `min_box_size`. -/
theorem degenerate_extent_always_param_error (lats lons : List FVal) (mn : ℝ) (n : ℕ)
    (hval : validate_data lats lons = .ok ())
    (hrange : spatial_range (toReals lats) = 0 ∨ spatial_range (toReals lons) = 0)
    (hmn : 0 < mn) :
    box_counting lats lons mn none n = .error .paramError := by
  simp only [box_counting, hval]
  have hmx : derived_max (spatial_range (toReals lats))
      (spatial_range (toReals lons)) none = 0 := by
    unfold derived_max
    simp only [Option.getD]
    rcases hrange with h | h
    · rw [h, min_eq_left (spatial_range_nonneg _), zero_div]
    · rw [h, min_eq_right (spatial_range_nonneg _), zero_div]
  rw [hmx, if_pos hmn.le]

/-- Witness for C10: a single point at (5, 7) passes validation, has
zero ranges, and the call with the default-derived maximum fails with
the parameter error. -/
theorem degenerate_extent_always_param_error_witness :
    box_counting [FVal.fin 5] [FVal.fin 7] 1 none 20 = .error .paramError := by
  apply degenerate_extent_always_param_error
  · rfl
  · left
    norm_num [spatial_range, toReals, np_amax, np_amin, FVal.toReal]
  · norm_num

lemma valid_observations_degenerate (lats lons : List ℝ) (sizes : List ℝ)
    (hpos : ∀ s ∈ sizes, 0 < s)
    (h : spatial_range lats = 0 ∨ spatial_range lons = 0) :
    valid_observations lats lons sizes = [] := by
  unfold valid_observations
  rw [List.filter_eq_nil]
  intro p hp
  have hp2 := (List.mem_zip hp).2
  rw [List.mem_map] at hp2
  rcases hp2 with ⟨s, hs, heq⟩
  rw [← heq]
  simp [get_box_counts_degenerate lats lons s (hpos s hs) h]

/-- C3 (code bug): on a single point the estimation call crashes instead
of reporting a degenerate fit.  Every scale gets occupancy count `0`
(degenerate single-edge grid), the zero-count filter removes all scales,
and the regression rejects its empty input — modelled here as the
`emptyInput` regression error, matching the `ValueError` scipy raises. -/
theorem single_point_estimation_crashes :
    box_counting [FVal.fin 0] [FVal.fin 0] 1 (some 2) 2 =
      .error (.regression .emptyInput) := by
  have hval : validate_data [FVal.fin 0] [FVal.fin 0] = .ok () := by rfl
  simp only [box_counting, hval]
  rw [if_neg (by norm_num [derived_max])]
  rw [valid_observations_degenerate _ _ _ (np_logspace_pos _ _ _)
    (Or.inl (by norm_num [toReals, FVal.toReal, spatial_range, np_amax, np_amin]))]
  simp [calculate_fractal_dimension, linregress_nil, Except.map]

/-- C6 counterexample: a call in which zero scales survive the filter —
fewer than 3 — is fatal (the regression rejects empty input), refuting
the claim that the call always warns and returns a `FitResult` whenever
fewer than 3 scales survive. -/
theorem low_scale_survival_can_be_fatal :
    surviving_scales [FVal.fin 0] [FVal.fin 0] 1 (some 2) 5 = 0 ∧
      box_counting [FVal.fin 0] [FVal.fin 0] 1 (some 2) 5 =
        .error (.regression .emptyInput) := by
  have hval : validate_data [FVal.fin 0] [FVal.fin 0] = .ok () := by rfl
  have hobs := valid_observations_degenerate
    (toReals [FVal.fin 0]) (toReals [FVal.fin 0])
    (np_logspace (np_log10 1)
      (np_log10 (derived_max (spatial_range (toReals [FVal.fin 0]))
        (spatial_range (toReals [FVal.fin 0])) (some 2))) 5)
    (np_logspace_pos _ _ _)
    (Or.inl (by norm_num [toReals, FVal.toReal, spatial_range, np_amax, np_amin]))
  constructor
  · simp only [surviving_scales]
    rw [hobs]
    rfl
  · simp only [box_counting, hval]
    rw [if_neg (by norm_num [derived_max])]
    rw [hobs]
    simp [calculate_fractal_dimension, linregress_nil, Except.map]

/-- C5 counterexample: with `num_scales = 0 < 1` (but a well-formed
input and `min_box_size < max_box_size`) the call does not fail with the
parameter error — it runs into the empty regression instead, refuting
the claim that `num_scales < 1` produces a `ParameterError`. -/
theorem num_scales_zero_not_param_error :
    box_counting [FVal.fin 0, FVal.fin 1] [FVal.fin 0, FVal.fin 1] 1 (some 2) 0 =
        .error (.regression .emptyInput) ∧
      box_counting [FVal.fin 0, FVal.fin 1] [FVal.fin 0, FVal.fin 1] 1 (some 2) 0 ≠
        .error .paramError := by
  have hval : validate_data [FVal.fin 0, FVal.fin 1] [FVal.fin 0, FVal.fin 1] =
      .ok () := by rfl
  have hmain : box_counting [FVal.fin 0, FVal.fin 1] [FVal.fin 0, FVal.fin 1] 1
      (some 2) 0 = .error (.regression .emptyInput) := by
    simp only [box_counting, hval]
    rw [if_neg (by norm_num [derived_max])]
    rw [show valid_observations (toReals [FVal.fin 0, FVal.fin 1])
      (toReals [FVal.fin 0, FVal.fin 1])
      (np_logspace (np_log10 1)
        (np_log10 (derived_max (spatial_range (toReals [FVal.fin 0, FVal.fin 1]))
          (spatial_range (toReals [FVal.fin 0, FVal.fin 1])) (some 2))) 0) = []
      from by simp [np_logspace, np_linspace, valid_observations]]
    simp [calculate_fractal_dimension, linregress_nil, Except.map]
  exact ⟨hmain, by rw [hmain]; simp⟩

/-- C4: the estimation entry point fails with a validation error —
returning no partial result — exactly when the coordinate input is
malformed (both arrays empty, unequal lengths, a non-finite value, a
latitude of magnitude above 90, or a longitude of magnitude above 180),
for every parameter configuration. -/
theorem validation_rejection_iff (lats lons : List FVal) (mn : ℝ) (mx : Option ℝ) (n : ℕ) :
    (∃ e, box_counting lats lons mn mx n = .error (.validation e)) ↔
      Malformed lats lons := by
  rw [← validate_data_error_iff]
  constructor
  · rintro ⟨e, he⟩
    rcases validate_data_ok_or_error lats lons with hok | ⟨e2, herr⟩
    · exfalso
      simp only [box_counting, hok] at he
      split at he
      · simp at he
      · split at he <;> simp at he
    · exact ⟨e2, herr⟩
  · rintro ⟨e, herr⟩
    refine ⟨e, ?_⟩
    simp only [box_counting, herr]

/-- Witness for C4: an out-of-range latitude is rejected with a
validation error. -/
theorem validation_rejection_iff_witness :
    ∃ e, box_counting [FVal.fin 95] [FVal.fin 0] 1 none 20 = .error (.validation e) :=
  (validation_rejection_iff _ _ 1 none 20).2
    (Or.inr (Or.inr (Or.inr (Or.inr (Or.inl ⟨FVal.fin 95, by simp, by rfl⟩)))))

/-- C5 (amended): for a positive `min_box_size`, the call fails with the
`ParameterError` exactly when validation passes and the given or derived
`max_box_size` is at most `min_box_size`; no other configuration —
in particular `num_scales < 1` — produces that error. -/
theorem param_error_iff (lats lons : List FVal) (mn : ℝ) (mx : Option ℝ) (n : ℕ)
    (h0 : 0 < mn) :
    box_counting lats lons mn mx n = .error .paramError ↔
      (validate_data lats lons = .ok () ∧
        derived_max (spatial_range (toReals lats)) (spatial_range (toReals lons)) mx ≤ mn) := by
  constructor
  · intro he
    rcases validate_data_ok_or_error lats lons with hok | ⟨e2, herr⟩
    · refine ⟨hok, ?_⟩
      simp only [box_counting, hok] at he
      by_cases hge : mn ≥ derived_max (spatial_range (toReals lats))
        (spatial_range (toReals lons)) mx
      · exact hge
      · exfalso
        rw [if_neg hge] at he
        split at he <;> simp at he
    · exfalso
      simp only [box_counting, herr] at he
      simp at he
  · rintro ⟨hok, hle⟩
    simp only [box_counting, hok]
    rw [if_pos hle]

/-- Witness for C5: `min_box_size = 5 ≥ 2 = max_box_size` is rejected
with the parameter error. -/
theorem param_error_iff_witness :
    box_counting [FVal.fin 0, FVal.fin 1] [FVal.fin 0, FVal.fin 1] 5 (some 2) 20 =
      .error .paramError :=
  (param_error_iff _ _ 5 (some 2) 20 (by norm_num)).2
    ⟨by rfl, by norm_num [derived_max]⟩

/-- C7 counterexample: requesting a single scale between
`min_box_size = 1` and `max_box_size = 2` yields the series `[1]`, whose
last element is not the maximum — refuting the claim for
`num_scales = 1`. -/
theorem scale_series_single_scale :
    np_logspace (np_log10 1) (np_log10 2) 1 = [1] ∧ (1:ℝ) ≠ 2 := by
  refine ⟨?_, by norm_num⟩
  rw [np_logspace, np_linspace]
  simp [np_log10, Real.logb_one, Real.rpow_zero]

/-- C7 (amended): for `num_scales = N ≥ 2` and `0 < min_box_size <
max_box_size`, the generated scale series has exactly N strictly
increasing values, the first being `min_box_size` and the last
`max_box_size`; for `N = 1` the single value is `min_box_size`. -/
theorem scale_series_count_invariant (mn mx : ℝ) (n : ℕ)
    (h0 : 0 < mn) (hlt : mn < mx) (hn : 2 ≤ n) :
    (np_logspace (np_log10 mn) (np_log10 mx) n).length = n ∧
    (np_logspace (np_log10 mn) (np_log10 mx) n).head? = some mn ∧
    (np_logspace (np_log10 mn) (np_log10 mx) n).getLast? = some mx ∧
    (np_logspace (np_log10 mn) (np_log10 mx) n).Pairwise (· < ·) :=
  scale_series_spec mn mx n h0 hlt hn

/-- Witness for C7 at `min_box_size = 1`, `max_box_size = 10`,
`num_scales = 2`. -/
theorem scale_series_count_invariant_witness :
    (np_logspace (np_log10 1) (np_log10 10) 2).length = 2 ∧
    (np_logspace (np_log10 1) (np_log10 10) 2).head? = some 1 ∧
    (np_logspace (np_log10 1) (np_log10 10) 2).getLast? = some 10 ∧
    (np_logspace (np_log10 1) (np_log10 10) 2).Pairwise (· < ·) :=
  scale_series_count_invariant 1 10 2 (by norm_num) (by norm_num) (by norm_num)

/-! ## Concrete grid evaluations -/

lemma gbc_corners_s1 : get_box_counts [0, 0, 1, 1] [0, 1, 0, 1] (1:ℝ) = 1 := by
  have a1 : np_amax [0, 0, 1, 1] = 1 := by norm_num [np_amax, List.foldl, max_def]
  have a2 : np_amin [0, 0, 1, 1] = 0 := by norm_num [np_amin, List.foldl, min_def]
  have a3 : np_amax [0, 1, 0, 1] = 1 := by norm_num [np_amax, List.foldl, max_def]
  have a4 : np_amin [0, 1, 0, 1] = 0 := by norm_num [np_amin, List.foldl, min_def]
  have c1 : ⌈((1:ℝ) + 1 - 0) / 1⌉ = 2 := by rw [Int.ceil_eq_iff] <;> norm_num
  have f1 : ⌊((0:ℝ) - 0) / 1⌋ = 0 := by norm_num
  have f2 : ⌊((1:ℝ) - 0) / 1⌋ = 1 := by norm_num
  simp only [get_box_counts, np_arange, a1, a2, a3, a4, c1, List.length_map,
    List.length_range, Int.toNat_ofNat, List.zip, List.zipWith, List.map, binIndex,
    f1, f2]
  decide

lemma gbc_corners_s2 : get_box_counts [0, 0, 1, 1] [0, 1, 0, 1] (2:ℝ) = 1 := by
  have a1 : np_amax [0, 0, 1, 1] = 1 := by norm_num [np_amax, List.foldl, max_def]
  have a2 : np_amin [0, 0, 1, 1] = 0 := by norm_num [np_amin, List.foldl, min_def]
  have a3 : np_amax [0, 1, 0, 1] = 1 := by norm_num [np_amax, List.foldl, max_def]
  have a4 : np_amin [0, 1, 0, 1] = 0 := by norm_num [np_amin, List.foldl, min_def]
  have c1 : ⌈((1:ℝ) + 2 - 0) / 2⌉ = 2 := by rw [Int.ceil_eq_iff] <;> norm_num
  have f1 : ⌊((0:ℝ) - 0) / 2⌋ = 0 := by norm_num
  have f2 : ⌊((1:ℝ) - 0) / 2⌋ = 0 := by norm_num
  simp only [get_box_counts, np_arange, a1, a2, a3, a4, c1, List.length_map,
    List.length_range, Int.toNat_ofNat, List.zip, List.zipWith, List.map, binIndex,
    f1, f2]
  decide

lemma gbc_anchor_s12 : get_box_counts [0, 39, 41] [0, 1, 2] (12:ℝ) = 2 := by
  have a1 : np_amax [0, 39, 41] = 41 := by norm_num [np_amax, List.foldl, max_def]
  have a2 : np_amin [0, 39, 41] = 0 := by norm_num [np_amin, List.foldl, min_def]
  have a3 : np_amax [0, 1, 2] = 2 := by norm_num [np_amax, List.foldl, max_def]
  have a4 : np_amin [0, 1, 2] = 0 := by norm_num [np_amin, List.foldl, min_def]
  have c1 : ⌈((41:ℝ) + 12 - 0) / 12⌉ = 5 := by rw [Int.ceil_eq_iff] <;> norm_num
  have c2 : ⌈((2:ℝ) + 12 - 0) / 12⌉ = 2 := by rw [Int.ceil_eq_iff] <;> norm_num
  have f1 : ⌊((0:ℝ) - 0) / 12⌋ = 0 := by norm_num
  have f2 : ⌊((39:ℝ) - 0) / 12⌋ = 3 := by norm_num
  have f3 : ⌊((41:ℝ) - 0) / 12⌋ = 3 := by norm_num
  have f4 : ⌊((1:ℝ) - 0) / 12⌋ = 0 := by norm_num
  have f5 : ⌊((2:ℝ) - 0) / 12⌋ = 0 := by norm_num
  simp only [get_box_counts, np_arange, a1, a2, a3, a4, c1, c2, List.length_map,
    List.length_range, Int.toNat_ofNat, List.zip, List.zipWith, List.map, binIndex,
    f1, f2, f3, f4, f5]
  decide

lemma gbc_anchor_s20 : get_box_counts [0, 39, 41] [0, 1, 2] (20:ℝ) = 3 := by
  have a1 : np_amax [0, 39, 41] = 41 := by norm_num [np_amax, List.foldl, max_def]
  have a2 : np_amin [0, 39, 41] = 0 := by norm_num [np_amin, List.foldl, min_def]
  have a3 : np_amax [0, 1, 2] = 2 := by norm_num [np_amax, List.foldl, max_def]
  have a4 : np_amin [0, 1, 2] = 0 := by norm_num [np_amin, List.foldl, min_def]
  have c1 : ⌈((41:ℝ) + 20 - 0) / 20⌉ = 4 := by rw [Int.ceil_eq_iff] <;> norm_num
  have c2 : ⌈((2:ℝ) + 20 - 0) / 20⌉ = 2 := by rw [Int.ceil_eq_iff] <;> norm_num
  have f1 : ⌊((0:ℝ) - 0) / 20⌋ = 0 := by norm_num
  have f2 : ⌊((39:ℝ) - 0) / 20⌋ = 1 := by norm_num
  have f3 : ⌊((41:ℝ) - 0) / 20⌋ = 2 := by norm_num
  have f4 : ⌊((1:ℝ) - 0) / 20⌋ = 0 := by norm_num
  have f5 : ⌊((2:ℝ) - 0) / 20⌋ = 0 := by norm_num
  simp only [get_box_counts, np_arange, a1, a2, a3, a4, c1, c2, List.length_map,
    List.length_range, Int.toNat_ofNat, List.zip, List.zipWith, List.map, binIndex,
    f1, f2, f3, f4, f5]
  decide

/-- C1 counterexample: at box size 1.0 the four corner points occupy a
single histogram cell, not four — `np.arange(0, 2, 1)` yields only the
two edges `[0, 1]`, one bin per axis, and the points at coordinate 1
fall into the closed last bin. -/
theorem exact_grid_count_not_four :
    get_box_counts [0, 0, 1, 1] [0, 1, 0, 1] (1:ℝ) ≠ 4 := by
  rw [gbc_corners_s1]
  norm_num

/-- C1 (amended): the four corner points give occupancy count 1 at box
size 1.0 and count 1 at box size 2.0, and the regression on box sizes
{1, 2} with counts {1, 1} returns `D = 0`, `r_squared = 0`,
standard error 0 and intercept 0 (the zero-variance guard fires). -/
theorem exact_grid_case_amended :
    get_box_counts [0, 0, 1, 1] [0, 1, 0, 1] (1:ℝ) = 1 ∧
    get_box_counts [0, 0, 1, 1] [0, 1, 0, 1] (2:ℝ) = 1 ∧
    calculate_fractal_dimension [1, 2] [1, 1] = .ok (0, 0, some 0, 0) := by
  refine ⟨gbc_corners_s1, gbc_corners_s2, ?_⟩
  unfold calculate_fractal_dimension
  have hpos : 0 < np_log10 2 := by
    rw [np_log10]
    exact Real.logb_pos (by norm_num) (by norm_num)
  rw [show ([1, 2] : List ℝ).map np_log10 = [0, np_log10 2] from by
    simp [np_log10, Real.logb_one]]
  rw [show ([1, 1] : List ℝ).map np_log10 = [(0:ℝ), 0] from by
    simp [np_log10, Real.logb_one]]
  rw [linregress_two_const 0 (np_log10 2) 0 (ne_of_lt hpos)]
  simp [Except.map]

/-- C8 counterexample: for the points (0,0), (39,1), (41,2) the occupancy
count at `box_size = 20` (three cells) exceeds the count at
`box_size = 12` (two cells): with the grid anchored at the data minimum,
a larger box size can separate points that a smaller one merged, so the
claimed monotone bound fails. -/
theorem monotonic_bound_violated :
    ¬ (get_box_counts [0, 39, 41] [0, 1, 2] (20:ℝ) ≤
       get_box_counts [0, 39, 41] [0, 1, 2] (12:ℝ)) := by
  rw [gbc_anchor_s20, gbc_anchor_s12]
  norm_num

/-- C8 (amended): for every point set and positive box size the
occupancy count is at most `n_points`, and it is at least 1 whenever
both coordinate ranges are positive; the count at the maximum box size
can exceed the count at the minimum box size (grid anchoring), so only
the bounds survive. -/
theorem box_count_bounds (lats lons : List ℝ) (s : ℝ) (hs : 0 < s)
    (hzip : lats.zip lons ≠ [])
    (h1 : spatial_range lats ≠ 0) (h2 : spatial_range lons ≠ 0) :
    1 ≤ get_box_counts lats lons s ∧ get_box_counts lats lons s ≤ lats.length :=
  ⟨get_box_counts_ge_one lats lons s hs hzip h1 h2, get_box_counts_le_length lats lons s⟩

/-- Witness for C8 at the two points (0,0) and (1,1) with box size 1. -/
theorem box_count_bounds_witness :
    1 ≤ get_box_counts [0, 1] [0, 1] (1:ℝ) ∧
      get_box_counts [0, 1] [0, 1] (1:ℝ) ≤ 2 := by
  have h := box_count_bounds [0, 1] [0, 1] 1 (by norm_num) (by simp)
    (by norm_num [spatial_range, np_amax, np_amin])
    (by norm_num [spatial_range, np_amax, np_amin])
  simpa using h

lemma calculate_fractal_dimension_ok (A B : List ℝ) (res : LinregressResult)
    (h : linregress (A.map np_log10) (B.map np_log10) = .ok res) :
    calculate_fractal_dimension A B =
      .ok (-res.slope, res.rvalue ^ 2, res.stderr, res.intercept) := by
  unfold calculate_fractal_dimension
  rw [h]
  rfl

/-- C6 (amended): whenever at least one scale survives the zero-count
filter, the call is non-fatal — it returns a `FitResult` whose
low-confidence flag records whether fewer than 3 scales survived — and
in particular it proceeds with as few as 2 surviving scales; with zero
surviving scales the regression rejects its empty input and the call
fails instead. -/
theorem low_confidence_nonfatal (lats lons : List FVal) (mn : ℝ) (mx : Option ℝ) (n : ℕ)
    (hval : validate_data lats lons = .ok ())
    (h0 : 0 < mn)
    (hlt : mn < derived_max (spatial_range (toReals lats)) (spatial_range (toReals lons)) mx)
    (hsur : 1 ≤ surviving_scales lats lons mn mx n) :
    ∃ r, box_counting lats lons mn mx n = .ok r ∧
      r.low_confidence = decide (surviving_scales lats lons mn mx n < 3) := by
  have hmono : np_log10 mn <
      np_log10 (derived_max (spatial_range (toReals lats))
        (spatial_range (toReals lons)) mx) :=
    Real.logb_lt_logb (by norm_num) h0 hlt
  have hpair : (np_logspace (np_log10 mn)
      (np_log10 (derived_max (spatial_range (toReals lats))
        (spatial_range (toReals lons)) mx)) n).Pairwise (· < ·) :=
    np_logspace_pairwise _ _ hmono n
  have hposz := np_logspace_pos (np_log10 mn)
    (np_log10 (derived_max (spatial_range (toReals lats))
      (spatial_range (toReals lons)) mx)) n
  have hsub := valid_observations_sizes_sublist (toReals lats) (toReals lons)
    (np_logspace (np_log10 mn)
      (np_log10 (derived_max (spatial_range (toReals lats))
        (spatial_range (toReals lons)) mx)) n)
  have hpair2 := hpair.sublist hsub
  have hposf : ∀ v ∈ (valid_observations (toReals lats) (toReals lons)
      (np_logspace (np_log10 mn)
        (np_log10 (derived_max (spatial_range (toReals lats))
          (spatial_range (toReals lons)) mx)) n)).map Prod.fst, 0 < v :=
    fun v hv => hposz v (hsub.subset hv)
  have hpairx : (((valid_observations (toReals lats) (toReals lons)
      (np_logspace (np_log10 mn)
        (np_log10 (derived_max (spatial_range (toReals lats))
          (spatial_range (toReals lons)) mx)) n)).map Prod.fst).map np_log10).Pairwise
      (· < ·) := by
    rw [List.pairwise_map]
    refine List.Pairwise.imp_of_mem ?_ hpair2
    intro a b ha hb hab
    exact Real.logb_lt_logb (by norm_num) (hposf a ha) hab
  have hlenobs : 1 ≤ (valid_observations (toReals lats) (toReals lons)
      (np_logspace (np_log10 mn)
        (np_log10 (derived_max (spatial_range (toReals lats))
          (spatial_range (toReals lons)) mx)) n)).length := hsur
  obtain ⟨res, hres⟩ := linregress_ok
    (((valid_observations (toReals lats) (toReals lons)
      (np_logspace (np_log10 mn)
        (np_log10 (derived_max (spatial_range (toReals lats))
          (spatial_range (toReals lons)) mx)) n)).map Prod.fst).map np_log10)
    ((((valid_observations (toReals lats) (toReals lons)
      (np_logspace (np_log10 mn)
        (np_log10 (derived_max (spatial_range (toReals lats))
          (spatial_range (toReals lons)) mx)) n)).map Prod.snd).map
            (fun c : ℕ => (c : ℝ))).map np_log10)
    (by
      rw [not_or, List.length_map, List.length_map, List.length_map, List.length_map,
        List.length_map]
      omega)
    (by
      rintro ⟨hl, heq⟩
      refine pairwise_lt_amax_ne_amin _ hpairx ?_ heq
      omega)
  refine ⟨⟨-res.slope, res.rvalue ^ 2, res.stderr, res.intercept, lats.length,
    spatial_range (toReals lats), spatial_range (toReals lons),
    (valid_observations (toReals lats) (toReals lons)
      (np_logspace (np_log10 mn)
        (np_log10 (derived_max (spatial_range (toReals lats))
          (spatial_range (toReals lons)) mx)) n)).map Prod.fst,
    (valid_observations (toReals lats) (toReals lons)
      (np_logspace (np_log10 mn)
        (np_log10 (derived_max (spatial_range (toReals lats))
          (spatial_range (toReals lons)) mx)) n)).map Prod.snd,
    decide ((valid_observations (toReals lats) (toReals lons)
      (np_logspace (np_log10 mn)
        (np_log10 (derived_max (spatial_range (toReals lats))
          (spatial_range (toReals lons)) mx)) n)).length < 3)⟩, ?_, ?_⟩
  · simp only [box_counting, hval]
    rw [if_neg (not_le.2 hlt)]
    rw [calculate_fractal_dimension_ok _ _ res hres]
  · rfl

lemma gbc_two_points_s1 : get_box_counts [0, 4] [0, 4] (1:ℝ) = 2 := by
  have a1 : np_amax [0, 4] = 4 := by norm_num [np_amax, List.foldl, max_def]
  have a2 : np_amin [0, 4] = 0 := by norm_num [np_amin, List.foldl, min_def]
  have c1 : ⌈((4:ℝ) + 1 - 0) / 1⌉ = 5 := by rw [Int.ceil_eq_iff] <;> norm_num
  have f1 : ⌊((0:ℝ) - 0) / 1⌋ = 0 := by norm_num
  have f2 : ⌊((4:ℝ) - 0) / 1⌋ = 4 := by norm_num
  simp only [get_box_counts, np_arange, a1, a2, c1, List.length_map,
    List.length_range, Int.toNat_ofNat, List.zip, List.zipWith, List.map, binIndex,
    f1, f2]
  decide

lemma gbc_two_points_s10 : get_box_counts [0, 4] [0, 4] (10:ℝ) = 1 := by
  have a1 : np_amax [0, 4] = 4 := by norm_num [np_amax, List.foldl, max_def]
  have a2 : np_amin [0, 4] = 0 := by norm_num [np_amin, List.foldl, min_def]
  have c1 : ⌈((4:ℝ) + 10 - 0) / 10⌉ = 2 := by rw [Int.ceil_eq_iff] <;> norm_num
  have f1 : ⌊((0:ℝ) - 0) / 10⌋ = 0 := by norm_num
  have f2 : ⌊((4:ℝ) - 0) / 10⌋ = 0 := by norm_num
  simp only [get_box_counts, np_arange, a1, a2, c1, List.length_map,
    List.length_range, Int.toNat_ofNat, List.zip, List.zipWith, List.map, binIndex,
    f1, f2]
  decide

lemma logspace_one_ten : np_logspace (np_log10 1) (np_log10 (10:ℝ)) 2 = [1, 10] := by
  rw [np_logspace, np_linspace]
  rw [show np_log10 1 = 0 from by simp [np_log10]]
  rw [show np_log10 (10:ℝ) = 1 from by
    rw [np_log10]
    exact Real.logb_self_eq_one (by norm_num)]
  norm_num [List.range_succ, Real.rpow_zero, Real.rpow_one]

lemma surviving_scales_two_point_eval :
    surviving_scales [FVal.fin 0, FVal.fin 4] [FVal.fin 0, FVal.fin 4] 1 (some 10) 2 = 2 := by
  have htr : toReals [FVal.fin 0, FVal.fin 4] = [0, 4] := by
    norm_num [toReals, FVal.toReal]
  simp only [surviving_scales]
  rw [show derived_max (spatial_range (toReals [FVal.fin 0, FVal.fin 4]))
    (spatial_range (toReals [FVal.fin 0, FVal.fin 4])) (some 10) = (10:ℝ) from rfl]
  rw [htr, logspace_one_ten]
  unfold valid_observations
  rw [show ([1, 10] : List ℝ).map (get_box_counts [0, 4] [0, 4]) = [2, 1] from by
    simp [gbc_two_points_s1, gbc_two_points_s10]]
  simp [List.filter]

/-- Witness for C6: two points (0,0) and (4,4) with `min_box_size = 1`,
`max_box_size = 10` and `num_scales = 2`: both scales survive
(fewer than 3), and the call returns a result flagged low-confidence. -/
theorem low_confidence_nonfatal_witness :
    1 ≤ surviving_scales [FVal.fin 0, FVal.fin 4] [FVal.fin 0, FVal.fin 4] 1 (some 10) 2 ∧
    ∃ r, box_counting [FVal.fin 0, FVal.fin 4] [FVal.fin 0, FVal.fin 4] 1 (some 10) 2 =
        .ok r ∧
      r.low_confidence = decide
        (surviving_scales [FVal.fin 0, FVal.fin 4] [FVal.fin 0, FVal.fin 4] 1 (some 10) 2 < 3) := by
  constructor
  · rw [surviving_scales_two_point_eval]
    norm_num
  · exact low_confidence_nonfatal [FVal.fin 0, FVal.fin 4] [FVal.fin 0, FVal.fin 4]
      1 (some 10) 2 (by rfl) (by norm_num)
      (by rw [show derived_max (spatial_range (toReals [FVal.fin 0, FVal.fin 4]))
            (spatial_range (toReals [FVal.fin 0, FVal.fin 4])) (some 10) = (10:ℝ) from rfl]
          norm_num)
      (by rw [surviving_scales_two_point_eval]
          norm_num)
